import Mathlib

/-!
Verification of the Telegram unban bot (`src/app.py`) against its
natural-language specification.

The development shallowly embeds the Python program: pure string
manipulation becomes Lean functions on `String` / `List Char`, the
side-effecting handlers become functions returning an explicit trace of
`Action`s together with their result, and the remote Telegram calls are
an explicit input (`RemoteResult`) to the handler under test.

The embedding covers ASCII text.  CPython's `int()`, `str.isdigit()` and
`str.strip()` additionally accept some non-ASCII characters; theorems
that depend on those functions carry an explicit all-ASCII hypothesis
where quantifying over arbitrary strings would otherwise overstate what
is modelled.
-/

namespace UnbanBot

/-! ## Basic string helpers (ASCII fragment of the Python built-ins) -/

/-- ASCII decimal digit test, `'0' <= c <= '9'`. -/
def isAsciiDigit (c : Char) : Bool :=
  '0' ≤ c && c ≤ '9'

/-- Characters removed by Python `str.strip()` (ASCII fragment). -/
def isPySpace (c : Char) : Bool :=
  c = ' ' || c = '\t' || c = '\n' || c = '\x0d' || c = '\x0b' || c = '\x0c'

/-- `str.strip()` on a character list: drop leading and trailing whitespace. -/
def pyStripList (l : List Char) : List Char :=
  ((l.dropWhile isPySpace).reverse.dropWhile isPySpace).reverse

/-- Python `str.strip()` (ASCII fragment). -/
def pyStrip (s : String) : String :=
  ⟨pyStripList s.data⟩

/-- Python `str.isdigit()` restricted to ASCII: nonempty and all ASCII digits. -/
def pyIsDigit (s : String) : Bool :=
  !s.data.isEmpty && s.data.all isAsciiDigit

/-- Python `str.lower()` restricted to ASCII (maps A-Z to a-z). -/
def pyLower (s : String) : String :=
  ⟨s.data.map Char.toLower⟩

/-- Python slicing `s[:n]`: the first `n` characters. -/
def pyTake (s : String) (n : Nat) : String :=
  ⟨s.data.take n⟩

/-- Value of an ASCII digit character. -/
def digitVal (c : Char) : Nat :=
  c.toNat - '0'.toNat

/-- Tail of CPython's digit-group grammar: digits in which a single
underscore may separate two digits, accumulating the value. -/
def parseDigitsTail (acc : Nat) : List Char → Option Nat
  | [] => some acc
  | '_' :: c :: cs =>
      if isAsciiDigit c then parseDigitsTail (acc * 10 + digitVal c) cs else none
  | c :: cs =>
      if isAsciiDigit c then parseDigitsTail (acc * 10 + digitVal c) cs else none

/-- CPython digit-group grammar `digit (["_"] digit)*`: a nonempty digit
string in which single underscores may separate digits. -/
def parseDigitGroup : List Char → Option Nat
  | [] => none
  | c :: cs => if isAsciiDigit c then parseDigitsTail (digitVal c) cs else none

/-- CPython `int(s)` on ASCII strings: strip surrounding whitespace, allow
one optional sign, then a digit group with optional single underscores
between digits.  `none` models `ValueError`. -/
def pyIntParse (s : String) : Option Int :=
  match pyStripList s.data with
  | '+' :: rest => (parseDigitGroup rest).map Int.ofNat
  | '-' :: rest => (parseDigitGroup rest).map (fun n => -(Int.ofNat n : Int))
  | l => (parseDigitGroup l).map Int.ofNat

/-- Boolean test that `small` is a leading segment of `big`. -/
def leadsWith : List Char → List Char → Bool
  | [], _ => true
  | _ :: _, [] => false
  | a :: as, b :: bs => a == b && leadsWith as bs

/-- Boolean substring search: does `needle` occur contiguously in
`haystack`?  Mirrors Python's `needle in haystack`. -/
def containsSub (haystack needle : List Char) : Bool :=
  match haystack with
  | [] => needle.isEmpty
  | _ :: t => leadsWith needle haystack || containsSub t needle

/-- Python `needle in s` on strings. -/
def strContains (s needle : String) : Bool :=
  containsSub s.data needle.data

/-- Python `s.startswith(p)` on strings. -/
def pyStartsWith (s p : String) : Bool :=
  leadsWith p.data s.data

/-- Every character of the string is ASCII. -/
def allAscii (s : String) : Prop :=
  ∀ c ∈ s.data, c.toNat < 128

instance (s : String) : Decidable (allAscii s) := by
  unfold allAscii
  infer_instance

/-! ## Data model

Observable actions of a handler.  A handler replies to the triggering
message (`reply`), edits the "Processing..." placeholder message in
place (`editPlaceholder`), could delete it (`deletePlaceholder` — no
code path in `src/app.py` emits this, it is in the alphabet so that
frame conditions can state its absence), calls the remote unban
capability, or logs. -/
inductive Action where
  | reply (text : String)
  | editPlaceholder (text : String)
  | deletePlaceholder
  | remoteUnban (chatId : Int) (userId : Int) (onlyIfBanned : Bool)
  | log (text : String)
deriving DecidableEq, Repr

/-- Result of the remote `unban_chat_member` call as the handler observes
it: either it returns, or it raises an exception carrying a message. -/
inductive RemoteResult where
  | ok
  | err (msg : String)
deriving DecidableEq, Repr

/-- The six-plus-timeout outcome classification of an unban request
(spec §3, "Unban Outcome"). -/
inductive UnbanOutcome where
  | success
  | invalidId
  | permissionDenied
  | userNotFound
  | notBanned
  | chatNotFound
  | timeout
  | otherError (msg : String)
deriving DecidableEq, Repr

/-- Configuration fragment the handlers read: the target channel id. -/
structure Config where
  channelId : Int
deriving DecidableEq, Repr

/-! ## Reply templates (`src/app.py`, the literal messages with their
HTML markup; emoji prefixes elided) -/

/-- Usage reply of `/unban` with no argument (lines 197-201). -/
def usageReply : String :=
  "<b>Usage:</b> <code>/unban USER_ID</code>\n\nExample: <code>/unban 123456789</code>\n\nGet user ID from @userinfobot"

/-- Guidance reply for a non-command, non-id direct message (lines 219-225). -/
def guidanceReply : String :=
  "<b>Send me a User ID to unban</b>\n\n1. Get user ID from @userinfobot\n2. Send me the number\n   Example: <code>123456789</code>\n\nOr use: <code>/unban 123456789</code>"

/-- The "Processing..." placeholder text (lines 237-241). -/
def processingText (user_id : String) (channelId : Int) : String :=
  "<b>Processing...</b>\nUser: <code>" ++ user_id ++ "</code>\nChannel: <code>" ++ toString channelId ++ "</code>"

/-- Success text edited into the placeholder (lines 251-257). -/
def successText (user_id : String) (channelId : Int) : String :=
  "<b>Successfully Unbanned!</b>\n\nUser ID: <code>" ++ user_id ++ "</code>\nChannel: <code>" ++ toString channelId ++ "</code>\n\nThe user can now join the channel again."

/-- Invalid-id reply (lines 262-266). -/
def invalidIdReply : String :=
  "<b>Invalid User ID!</b>\n\nUser ID must contain only numbers.\nExample: <code>123456789</code>"

/-- Permission-denied reply (lines 272-278). -/
def permissionDeniedReply (channelId : Int) : String :=
  "<b>Permission Denied!</b>\n\nI need to be an <b>ADMIN</b> in the channel with:\n• <b>Ban Users</b> permission\n\nChannel: <code>" ++ toString channelId ++ "</code>\n\nPlease add me as admin and try again."

/-- Chat-not-found reply (lines 280-284). -/
def chatNotFoundReply (channelId : Int) : String :=
  "<b>Channel Not Found!</b>\n\nChannel ID <code>" ++ toString channelId ++ "</code> is incorrect.\nPlease check your configuration."

/-- User-not-found reply (line 286). -/
def userNotFoundReply : String :=
  "User not found!"

/-- Not-banned reply (lines 288-291). -/
def notBannedReply (user_id : String) : String :=
  "<b>User is not banned!</b>\n\nUser <code>" ++ user_id ++ "</code> can already join the channel."

/-- Other-error reply with the (lowercased) message truncated to 200
characters (lines 293-296). -/
def otherErrorReply (msg : String) : String :=
  "<b>Error:</b> " ++ msg ++ "\n\nPlease try again later."

/-- Generic notification sent by the top-level error handler (lines 305-308). -/
def genericErrorReply : String :=
  "<b>An error occurred!</b>\nPlease try again later."

/-! ## Unban use-case (`process_unban_request`, lines 227-296) -/

/-- Exception-message classification of `process_unban_request`'s
`except Exception` arm (lines 267-296): lowercase the message, then test
substrings in the order the `if`/`elif` chain does — "not enough
rights", then "chat not found", then "user not found", then "not
banned", else `OtherError` with the message truncated to 200 characters. -/
def classifyUnbanError (msg : String) : UnbanOutcome :=
  let m := pyLower msg
  if strContains m "not enough rights" then .permissionDenied
  else if strContains m "chat not found" then .chatNotFound
  else if strContains m "user not found" then .userNotFound
  else if strContains m "not banned" then .notBanned
  else .otherError (pyTake m 200)

/-- The reply each error classification sends (a fresh reply to the
original message, never an edit of the placeholder). -/
def errorReplyFor (cfg : Config) (user_id : String) (o : UnbanOutcome) : String :=
  match o with
  | .permissionDenied => permissionDeniedReply cfg.channelId
  | .chatNotFound => chatNotFoundReply cfg.channelId
  | .userNotFound => userNotFoundReply
  | .notBanned => notBannedReply user_id
  | .otherError m => otherErrorReply m
  | _ => ""

/-- Embedding of `process_unban_request` (lines 227-296): parse the raw
id with `int()`; on `ValueError` reply invalid-id; otherwise send the
"Processing..." placeholder, call the remote unban capability with
`(CHANNEL_ID, target_user_id, only_if_banned=True)`, and on success edit
the placeholder in place, while on exception classify the message and
send the classified reply as a new message.  Returns the action trace
and the outcome. -/
def process_unban_request (cfg : Config) (user_id : String)
    (remote : RemoteResult) : List Action × UnbanOutcome :=
  match pyIntParse user_id with
  | none => ([.reply invalidIdReply], .invalidId)
  | some target_user_id =>
    let placeholder := Action.reply (processingText user_id cfg.channelId)
    let call := Action.remoteUnban cfg.channelId target_user_id true
    match remote with
    | .ok =>
        ([placeholder, call, .editPlaceholder (successText user_id cfg.channelId)],
         .success)
    | .err msg =>
        let o := classifyUnbanError msg
        ([placeholder, call, .reply (errorReplyFor cfg user_id o)], o)

/-! ## Trace observations -/

/-- Number of remote unban calls in a trace. -/
def countRemoteCalls (as : List Action) : Nat :=
  as.countP fun a => match a with
    | .remoteUnban _ _ _ => true
    | _ => false

/-- Number of placeholder edits in a trace. -/
def countEdits (as : List Action) : Nat :=
  as.countP fun a => match a with
    | .editPlaceholder _ => true
    | _ => false

/-- Number of placeholder deletions in a trace. -/
def countDeletes (as : List Action) : Nat :=
  as.countP fun a => match a with
    | .deletePlaceholder => true
    | _ => false

/-- Number of fresh replies in a trace whose text is exactly `txt`. -/
def countReplies (txt : String) (as : List Action) : Nat :=
  as.countP fun a => match a with
    | .reply t => t == txt
    | _ => false

/-! ## Message handlers (`src/app.py`, lines 190-225) -/

/-- Embedding of `unban_command` (lines 190-205): with no argument,
reply with the usage message and return without entering the use-case;
otherwise strip the first argument and process it. -/
def unban_command (cfg : Config) (args : List String)
    (remote : RemoteResult) : List Action × Option UnbanOutcome :=
  match args with
  | [] => ([.reply usageReply], none)
  | a :: _ =>
      let r := process_unban_request cfg (pyStrip a) remote
      (r.1, some r.2)

/-- Embedding of `handle_direct_message` (lines 207-225): strip the
text; empty → return silently; all-digit of length at least 5 → process
as an unban request; otherwise, if it does not start with `/`, send the
guidance reply. -/
def handle_direct_message (cfg : Config) (text : String)
    (remote : RemoteResult) : List Action × Option UnbanOutcome :=
  let t := pyStrip text
  if t = "" then ([], none)
  else if pyIsDigit t && decide (5 ≤ t.length) then
    let r := process_unban_request cfg t remote
    (r.1, some r.2)
  else if !pyStartsWith t "/" then ([.reply guidanceReply], none)
  else ([], none)

/-! ## Bounded (timeout) variant of the use-case

`src/app.py` wraps no timeout around the remote call; the spec (§4.3
step 2-3, §7(d)) describes the bounded variant present in the other
copies of this program, which are not part of `src/`. -/

/-- Modelled from the spec: outcome of the remote call under the bounded
wait of §4.3 — the timeout wrapper around `unban_chat_member` is absent
from `src/app.py` and is taken from the spec's steps 2-3. -/
inductive BoundedRemote where
  | returned (r : RemoteResult)
  | timedOut
deriving DecidableEq, Repr

/-- Modelled from the spec: the default timeout duration of the bounded
wait ("treat as a configurable duration, default 15s"). -/
def defaultUnbanTimeout : Nat := 15

/-- Modelled from the spec: the single user-visible "timed out, try
again" reply of §7(d). -/
def timedOutReply : String :=
  "<b>Request timed out!</b>\nThe operation took too long. Please try again later."

/-- Modelled from the spec: the unban use-case with the bounded wait of
§4.3 (absent from `src/app.py`): behave as `process_unban_request` when
the remote call returns within `timeoutSeconds`, and reply exactly once
with the timed-out message, yielding `Timeout`, when the bound elapses. -/
def process_unban_request_bounded (cfg : Config) (_timeoutSeconds : Nat)
    (user_id : String) (remote : BoundedRemote) : List Action × UnbanOutcome :=
  match remote with
  | .returned r => process_unban_request cfg user_id r
  | .timedOut =>
    match pyIntParse user_id with
    | none => ([.reply invalidIdReply], .invalidId)
    | some target_user_id =>
        ([.reply (processingText user_id cfg.channelId),
          .remoteUnban cfg.channelId target_user_id true,
          .reply timedOutReply], .timeout)

/-! ## Top-level error handler and dispatcher (lines 298-343) -/

/-- Whether the best-effort notification send of the error handler
succeeds or itself raises. -/
inductive NotifyResult where
  | sent
  | failed
deriving DecidableEq, Repr

/-- Embedding of `error_handler` (lines 298-310): log the failure, then,
when the update has an effective message, attempt the generic
notification inside `try`/`except: pass` — a failure of the
notification is swallowed.  Returns the trace and whether the handler
itself raises (the bare `except: pass` makes that `false` on every
path). -/
def error_handler (hasEffectiveMessage : Bool)
    (notify : NotifyResult) : List Action × Bool :=
  let logged := Action.log "Bot error"
  if hasEffectiveMessage then
    match notify with
    | .sent => ([logged, .reply genericErrorReply], false)
    | .failed => ([logged], false)
  else
    ([logged], false)

/-- How one handler invocation ends: normally with a trace, or raising. -/
inductive HandlerRun where
  | ok (actions : List Action)
  | raises (e : String)
deriving DecidableEq, Repr

/-- Modelled from the spec: the dispatcher's catch-all routing lives in
the external bot framework behind `add_error_handler` (line 343), not in
`src/app.py`.  Per §4.2, an exception raised by a handler is caught and
the registered `error_handler` is invoked in its place; the second
component is whether an exception propagates out of the dispatcher. -/
def dispatch (run : HandlerRun) (hasEffectiveMessage : Bool)
    (notify : NotifyResult) : List Action × Bool :=
  match run with
  | .ok as => (as, false)
  | .raises _ => error_handler hasEffectiveMessage notify

/-! ## Configuration validation (`Config.validate`, lines 53-102) -/

/-- Diagnostic for a missing bot credential (line 60). -/
def botTokenNotSet : String := "BOT_TOKEN is not set"

/-- Diagnostic for a malformed bot credential (line 62). -/
def botTokenFormatInvalid : String :=
  "BOT_TOKEN format is invalid. Should be like: 1234567890:ABCdefGhIJKlmNoPQRsTUVwxyZ"

/-- Diagnostic for a missing channel identifier (line 66). -/
def channelIdNotSet : String := "CHANNEL_ID is not set"

/-- Diagnostic for a non-numeric channel identifier (line 71). -/
def channelIdNotNumber : String := "CHANNEL_ID must be a number"

/-- The setup-instruction lines printed after the error list (lines 81-88). -/
def setupInstructions : List String :=
  ["🔧 Setup Instructions:",
   "1. Create bot: @BotFather → /newbot",
   "2. Get channel ID: Add @userinfobot to your channel, send /start",
   "3. Add bot to channel as ADMIN with Ban Users permission",
   "4. Set environment variables in Render:",
   "   - BOT_TOKEN: your_bot_token",
   "   - CHANNEL_ID: your_channel_id",
   "   - MODE: production"]

/-- Result of `Config.validate`: the boolean it returns, the collected
error list, the lines it prints, and the parsed channel id. -/
structure ValidateResult where
  ok : Bool
  errors : List String
  printed : List String
  channelId : Option Int
deriving DecidableEq, Repr

/-- Embedding of `Config.validate` (lines 53-98) on the two validated
environment values (both already `.strip()`-ed at class-body time).
Both checks run unconditionally and append to one `errors` list; on any
error the header, the indented error lines and the setup instructions
are printed and the method returns `False`; on success a summary is
printed in which the token appears as its first 10 characters followed
by `"..."`.  (The `PORT`/`MODE`/external-URL summary lines carry only
values outside this model and are not embedded.) -/
def validate (botToken channelIdStr : String) : ValidateResult :=
  let tokenErrors : List String :=
    if botToken = "" then [botTokenNotSet]
    else if !pyStartsWith botToken "bot" && !strContains botToken ":" then
      [botTokenFormatInvalid]
    else []
  let parsed := pyIntParse channelIdStr
  let channelErrors : List String :=
    if channelIdStr = "" then [channelIdNotSet]
    else if parsed.isNone then [channelIdNotNumber]
    else []
  let errors := tokenErrors ++ channelErrors
  if errors.isEmpty then
    { ok := true
      errors := []
      printed := ["✅ Configuration validated successfully!",
        "🤖 Bot Token: " ++ pyTake botToken 10 ++ "...",
        "📢 Channel ID: " ++ channelIdStr]
      channelId := parsed }
  else
    { ok := false
      errors := errors
      printed := "❌ Configuration Errors:" ::
        errors.map (fun e => "   - " ++ e) ++ setupInstructions
      channelId := none }

/-- Module-level startup gate (lines 100-102): `sys.exit(1)` when
validation fails, continue (`none`) otherwise. -/
def startupExit (botToken channelIdStr : String) : Option Nat :=
  if (validate botToken channelIdStr).ok then none else some 1

/-! ## HTTP endpoints (`/health` and `/webhook`, lines 436-492) -/

/-- The `checks` sub-object of the health body (lines 446-450). -/
structure HealthChecks where
  bot_initialized : Bool
  bot_running : Bool
  config_valid : Bool
deriving DecidableEq, Repr

/-- The JSON body of the `/health` response (lines 442-451). -/
structure HealthBody where
  status : String
  bot : String
  timestamp : String
  checks : HealthChecks
deriving DecidableEq, Repr

/-- Embedding of the `/health` view (lines 436-455): the `bot` field is
`"running"` when the application object exists and is running, else
`"starting"`; the response is `200` with status `"healthy"` (no
sub-computation of the `try` block raises in this embedding, so the
`500` arm is unreachable). -/
def health (botInitialized botRunning : Bool) (now : String) : Nat × HealthBody :=
  let bot_status := if botInitialized && botRunning then "running" else "starting"
  (200,
   { status := "healthy"
     bot := bot_status
     timestamp := now
     checks :=
       { bot_initialized := botInitialized
         bot_running := botInitialized && botRunning
         config_valid := true } })

/-- JSON bodies the webhook view answers with: an object with a single
`status` field, or one with a single `error` field. -/
inductive WebhookBody where
  | statusField (v : String)
  | errorField (v : String)
deriving DecidableEq, Repr

/-- How processing the decoded update ends.  `completed` and `raised`
embed lines 486-492 of `src/app.py`; `expired` is Modelled from the
spec: the bounded wait of §4.4 ("accepted, still processing" on expiry)
present in the other copies of this program, absent from `src/app.py`. -/
inductive ProcessOutcome where
  | completed
  | expired
  | raised (msg : String)
deriving DecidableEq, Repr

/-- Response of the webhook view plus the two scheduling observations
the spec talks about: whether work was handed to the runner and whether
an in-flight task was cancelled. -/
structure WebhookResponse where
  status : Nat
  body : WebhookBody
  scheduled : Bool
  taskCancelled : Bool
deriving DecidableEq, Repr

/-- Embedding of the `/webhook` view (lines 469-492), with the
bounded-wait arm Modelled from the spec (§4.4): runner not initialized →
`503` without scheduling; `request.get_json()` produced no data (body
missing or unparseable, modelled as `none`) → `400`; otherwise the
update is scheduled onto the runner, answering `200 ok` on completion,
`202 processing` on bounded-wait expiry with the task left running
(never cancelled), and `500` with the error message on an unhandled
failure. -/
def webhook (botInitialized : Bool) (jsonData : Option String)
    (outcome : ProcessOutcome) : WebhookResponse :=
  if !botInitialized then
    { status := 503, body := .errorField "Bot not initialized",
      scheduled := false, taskCancelled := false }
  else
    match jsonData with
    | none =>
        { status := 400, body := .errorField "No JSON data",
          scheduled := false, taskCancelled := false }
    | some _ =>
        match outcome with
        | .completed =>
            { status := 200, body := .statusField "ok",
              scheduled := true, taskCancelled := false }
        | .expired =>
            { status := 202, body := .statusField "processing",
              scheduled := true, taskCancelled := false }
        | .raised m =>
            { status := 500, body := .errorField m,
              scheduled := true, taskCancelled := false }

/-! ## Theorems -/

/-- C1 (counterexample): the message "user not found: chat not found"
contains "user not found" and does not contain "not enough rights", so
the claim's priority order requires `UserNotFound`; the code classifies
it as `ChatNotFound`, because the `elif` chain tests "chat not found"
second, not fourth. -/
theorem claim1_counterexample :
    strContains (pyLower "user not found: chat not found") "not enough rights" = false ∧
    strContains (pyLower "user not found: chat not found") "user not found" = true ∧
    classifyUnbanError "user not found: chat not found" = .chatNotFound ∧
    UnbanOutcome.chatNotFound ≠ UnbanOutcome.userNotFound := by
  decide

/-- C1 (amended): for every parseable id, the unban use-case classifies
a remote exception message by case-insensitive substring match in the
priority order of the code: "not enough rights" → `PermissionDenied`,
otherwise "chat not found" → `ChatNotFound`, otherwise "user not found"
→ `UserNotFound`, otherwise "not banned" → `NotBanned`, otherwise
`OtherError` with the lowercased message truncated to 200 characters.
The all-ASCII hypothesis scopes the embedding of `str.lower()`. -/
theorem claim1_error_classification_priority (cfg : Config) (s : String)
    (uid : Int) (msg : String) (_ha : allAscii msg)
    (hp : pyIntParse s = some uid) :
    (process_unban_request cfg s (.err msg)).2 = classifyUnbanError msg ∧
    (strContains (pyLower msg) "not enough rights" = true →
      classifyUnbanError msg = .permissionDenied) ∧
    (strContains (pyLower msg) "not enough rights" = false →
      strContains (pyLower msg) "chat not found" = true →
      classifyUnbanError msg = .chatNotFound) ∧
    (strContains (pyLower msg) "not enough rights" = false →
      strContains (pyLower msg) "chat not found" = false →
      strContains (pyLower msg) "user not found" = true →
      classifyUnbanError msg = .userNotFound) ∧
    (strContains (pyLower msg) "not enough rights" = false →
      strContains (pyLower msg) "chat not found" = false →
      strContains (pyLower msg) "user not found" = false →
      strContains (pyLower msg) "not banned" = true →
      classifyUnbanError msg = .notBanned) ∧
    (strContains (pyLower msg) "not enough rights" = false →
      strContains (pyLower msg) "chat not found" = false →
      strContains (pyLower msg) "user not found" = false →
      strContains (pyLower msg) "not banned" = false →
      classifyUnbanError msg = .otherError (pyTake (pyLower msg) 200) ∧
      (pyTake (pyLower msg) 200).length ≤ 200) := by
  refine ⟨?_, ?_, ?_, ?_, ?_, ?_⟩
  · simp [process_unban_request, hp]
  · intro h1
    simp [classifyUnbanError, h1]
  · intro h1 h2
    simp [classifyUnbanError, h1, h2]
  · intro h1 h2 h3
    simp [classifyUnbanError, h1, h2, h3]
  · intro h1 h2 h3 h4
    simp [classifyUnbanError, h1, h2, h3, h4]
  · intro h1 h2 h3 h4
    refine ⟨by simp [classifyUnbanError, h1, h2, h3, h4], ?_⟩
    exact List.length_take_le 200 (pyLower msg).data

/-- C1 (witness): at the concrete message "NOT ENOUGH RIGHTS: chat not
found" for user id "12345", the use-case yields `PermissionDenied`. -/
theorem claim1_witness :
    (process_unban_request ⟨-100555⟩ "12345"
      (.err "NOT ENOUGH RIGHTS: chat not found")).2 = .permissionDenied := by
  have h := claim1_error_classification_priority ⟨-100555⟩ "12345" 12345
    "NOT ENOUGH RIGHTS: chat not found" (by decide) (by decide)
  exact h.1.trans (h.2.1 (by decide))

/-- C3 (counterexample): the string "-5" is not composed entirely of
ASCII digits, yet Python's `int()` parses it, so the use-case reaches
the remote capability and does not yield `InvalidId`. -/
theorem claim3_counterexample :
    ("-5".data.all isAsciiDigit) = false ∧
    (process_unban_request ⟨-100555⟩ "-5" .ok).2 = .success ∧
    (process_unban_request ⟨-100555⟩ "-5" .ok).2 ≠ .invalidId ∧
    countRemoteCalls (process_unban_request ⟨-100555⟩ "-5" .ok).1 = 1 := by
  decide

/-- C3 (amended): for every string rejected by the base-10 parse
(Python's `int()`, which beyond ASCII digit strings also accepts an
optional sign, surrounding whitespace and underscores between digits),
the unban use-case yields `InvalidId`, sends only the invalid-id reply,
and never invokes the remote unban capability.  The all-ASCII
hypothesis scopes the embedding of `int()`. -/
theorem claim3_invalid_id_no_remote_call (cfg : Config) (s : String)
    (r : RemoteResult) (_ha : allAscii s) (hp : pyIntParse s = none) :
    (process_unban_request cfg s r).2 = .invalidId ∧
    (process_unban_request cfg s r).1 = [.reply invalidIdReply] ∧
    countRemoteCalls (process_unban_request cfg s r).1 = 0 := by
  refine ⟨?_, ?_, ?_⟩ <;> simp [process_unban_request, hp, countRemoteCalls]

/-- C3 (witness): the non-numeric string "abc" yields `InvalidId` with
no remote call. -/
theorem claim3_witness :
    (process_unban_request ⟨-100555⟩ "abc" .ok).2 = .invalidId ∧
    (process_unban_request ⟨-100555⟩ "abc" .ok).1 = [.reply invalidIdReply] ∧
    countRemoteCalls (process_unban_request ⟨-100555⟩ "abc" .ok).1 = 0 :=
  claim3_invalid_id_no_remote_call ⟨-100555⟩ "abc" .ok (by decide) (by decide)

/-- C6: `/unban` with no argument replies with exactly the usage
message, never enters the use-case, and performs zero remote calls. -/
theorem claim6_unban_no_argument (cfg : Config) (r : RemoteResult) :
    unban_command cfg [] r = ([.reply usageReply], none) ∧
    countRemoteCalls (unban_command cfg [] r).1 = 0 ∧
    countReplies usageReply (unban_command cfg [] r).1 = 1 := by
  refine ⟨rfl, ?_, ?_⟩ <;> rfl

/-- C9 (counterexample): with the application initialized and running,
the `bot` field of the health body is "running", which is none of the
three values "ready", "starting", "not_ready" the claim allows. -/
theorem claim9_counterexample :
    (health true true "2026-10-12T00:00:00").2.bot = "running" ∧
    (health true true "2026-10-12T00:00:00").2.bot ≠ "ready" ∧
    (health true true "2026-10-12T00:00:00").2.bot ≠ "starting" ∧
    (health true true "2026-10-12T00:00:00").2.bot ≠ "not_ready" := by
  decide

/-- C9 (amended): every `/health` request is answered `200` with a body
carrying a `status` field ("healthy"), the timestamp, and a `bot` field
whose value is "running" or "starting". -/
theorem claim9_health_response (bi br : Bool) (now : String) :
    (health bi br now).1 = 200 ∧
    (health bi br now).2.status = "healthy" ∧
    (health bi br now).2.timestamp = now ∧
    ((health bi br now).2.bot = "running" ∨ (health bi br now).2.bot = "starting") := by
  cases bi <;> cases br <;> simp [health]

/-- C10: for every parseable id, a remote exception leaves the
"Processing..." placeholder untouched (no edit, no deletion) and sends
the classified reply as a fresh message, last in the trace; only the
success path edits the placeholder in place (exactly one edit, as the
final action, and never a deletion). -/
theorem claim10_placeholder_frame (cfg : Config) (s : String) (uid : Int)
    (e : String) (hp : pyIntParse s = some uid) :
    countEdits (process_unban_request cfg s (.err e)).1 = 0 ∧
    countDeletes (process_unban_request cfg s (.err e)).1 = 0 ∧
    (process_unban_request cfg s (.err e)).1.getLast? =
      some (.reply (errorReplyFor cfg s (classifyUnbanError e))) ∧
    countDeletes (process_unban_request cfg s .ok).1 = 0 ∧
    countEdits (process_unban_request cfg s .ok).1 = 1 ∧
    (process_unban_request cfg s .ok).1.getLast? =
      some (.editPlaceholder (successText s cfg.channelId)) := by
  refine ⟨?_, ?_, ?_, ?_, ?_, ?_⟩ <;>
    simp [process_unban_request, hp, countEdits, countDeletes, List.getLast?]

/-- C10 (witness): at user id "12345" with a remote error, the trace
has no placeholder edit and ends in the fresh classified reply. -/
theorem claim10_witness :
    countEdits (process_unban_request ⟨-100555⟩ "12345" (.err "boom")).1 = 0 ∧
    countDeletes (process_unban_request ⟨-100555⟩ "12345" (.err "boom")).1 = 0 ∧
    (process_unban_request ⟨-100555⟩ "12345" (.err "boom")).1.getLast? =
      some (.reply (errorReplyFor ⟨-100555⟩ "12345" (classifyUnbanError "boom"))) ∧
    countDeletes (process_unban_request ⟨-100555⟩ "12345" .ok).1 = 0 ∧
    countEdits (process_unban_request ⟨-100555⟩ "12345" .ok).1 = 1 ∧
    (process_unban_request ⟨-100555⟩ "12345" .ok).1.getLast? =
      some (.editPlaceholder (successText "12345" (-100555))) :=
  claim10_placeholder_frame ⟨-100555⟩ "12345" 12345 "boom" (by decide)

/-- C2: for every parseable id and every configured bound, a remote call
that does not return within the bound yields the `Timeout` outcome and
exactly one timed-out reply is sent — never two.  The bounded wait is
modelled from the spec (§4.3, default 15s), `src/app.py` itself wrapping
no timeout around the call. -/
theorem claim2_timeout_single_reply (cfg : Config) (t : Nat) (s : String)
    (uid : Int) (hp : pyIntParse s = some uid) :
    (process_unban_request_bounded cfg t s .timedOut).2 = .timeout ∧
    countReplies timedOutReply (process_unban_request_bounded cfg t s .timedOut).1 = 1 := by
  have hne : processingText s cfg.channelId ≠ timedOutReply := by
    intro h
    have h4 : (['<', 'b', '>', 'P'] : List Char) = ['<', 'b', '>', 'R'] :=
      congrArg (fun x : String => x.data.take 4) h
    exact absurd h4 (by decide)
  have hb : (processingText s cfg.channelId == timedOutReply) = false :=
    beq_eq_false_iff_ne.mpr hne
  refine ⟨?_, ?_⟩
  · simp [process_unban_request_bounded, hp]
  · simp [process_unban_request_bounded, hp, countReplies, hb]

/-- C2 (witness): at user id "12345" with the default 15s bound, expiry
yields `Timeout` with exactly one timed-out reply. -/
theorem claim2_witness :
    (process_unban_request_bounded ⟨-100555⟩ defaultUnbanTimeout "12345" .timedOut).2 = .timeout ∧
    countReplies timedOutReply
      (process_unban_request_bounded ⟨-100555⟩ defaultUnbanTimeout "12345" .timedOut).1 = 1 :=
  claim2_timeout_single_reply ⟨-100555⟩ defaultUnbanTimeout "12345" 12345 (by decide)

/-- C4: the webhook answers `503` without scheduling work when the
runner is not initialized, `400` when `get_json` produced no data,
`200 ok` on completion, `202 processing` on bounded-wait expiry with the
triggering task not cancelled (expiry arm modelled from the spec §4.4),
and `500` with an error body on unhandled failure. -/
theorem claim4_webhook_status_codes (b : Bool) (j : Option String)
    (o : ProcessOutcome) :
    (b = false → webhook b j o =
      ⟨503, .errorField "Bot not initialized", false, false⟩) ∧
    (b = true → j = none → webhook b j o =
      ⟨400, .errorField "No JSON data", false, false⟩) ∧
    (b = true → ∀ d, j = some d → o = .completed → webhook b j o =
      ⟨200, .statusField "ok", true, false⟩) ∧
    (b = true → ∀ d, j = some d → o = .expired →
      webhook b j o = ⟨202, .statusField "processing", true, false⟩ ∧
      (webhook b j o).taskCancelled = false) ∧
    (b = true → ∀ d m, j = some d → o = .raised m → webhook b j o =
      ⟨500, .errorField m, true, false⟩) := by
  refine ⟨?_, ?_, ?_, ?_, ?_⟩ <;> intros <;> subst_vars <;> simp [webhook]

/-- C4 (witness): a ready runner with a decoded body whose processing
outlives the bound is answered `202 processing`, the task uncancelled. -/
theorem claim4_witness :
    webhook true (some "update") .expired =
      ⟨202, .statusField "processing", true, false⟩ ∧
    (webhook true (some "update") .expired).taskCancelled = false :=
  (claim4_webhook_status_codes true (some "update") .expired).2.2.2.1 rfl
    "update" rfl rfl

/-- C5 (counterexample): a whitespace-only direct message (" ") is
shorter than 5 digits, is not all-digit and does not start with "/",
so the claim requires the guidance reply; the handler strips it to the
empty string and returns without sending anything. -/
theorem claim5_counterexample :
    pyIsDigit " " = false ∧
    pyStartsWith " " "/" = false ∧
    (handle_direct_message ⟨-100555⟩ " " .ok).1 = [] ∧
    countReplies guidanceReply (handle_direct_message ⟨-100555⟩ " " .ok).1 = 0 := by
  decide

/-- C5 (amended): writing t* for the text stripped of surrounding
whitespace: an all-digit t* of length at least 5 is forwarded to the
unban use-case as a candidate id; a nonempty t* that is not such a
string and does not start with "/" gets the guidance reply and no unban
attempt; a message that strips to empty gets no reply at all.  The
all-ASCII hypothesis scopes the embedding of `strip`/`isdigit`. -/
theorem claim5_direct_message_dispatch (cfg : Config) (text : String)
    (r : RemoteResult) (_ha : allAscii text) :
    (pyIsDigit (pyStrip text) = true → 5 ≤ (pyStrip text).length →
      (handle_direct_message cfg text r).1 = (process_unban_request cfg (pyStrip text) r).1 ∧
      (handle_direct_message cfg text r).2 = some (process_unban_request cfg (pyStrip text) r).2) ∧
    (pyStrip text ≠ "" →
      ¬(pyIsDigit (pyStrip text) = true ∧ 5 ≤ (pyStrip text).length) →
      pyStartsWith (pyStrip text) "/" = false →
      (handle_direct_message cfg text r).1 = [.reply guidanceReply] ∧
      (handle_direct_message cfg text r).2 = none ∧
      countRemoteCalls (handle_direct_message cfg text r).1 = 0) ∧
    (pyStrip text = "" →
      (handle_direct_message cfg text r).1 = [] ∧
      (handle_direct_message cfg text r).2 = none) := by
  refine ⟨?_, ?_, ?_⟩
  · intro h1 h2
    have hne : pyStrip text ≠ "" := by
      intro he
      rw [he] at h1
      exact absurd h1 (by decide)
    simp [handle_direct_message, hne, h1, h2]
  · intro hne h12 h3
    have hcond : (pyIsDigit (pyStrip text) && decide (5 ≤ (pyStrip text).length)) = false := by
      by_cases hd : pyIsDigit (pyStrip text) = true
      · by_cases hl : 5 ≤ (pyStrip text).length
        · exact absurd ⟨hd, hl⟩ h12
        · simp [hd, hl]
      · simp [Bool.not_eq_true] at hd
        simp [hd]
    simp [handle_direct_message, hne, hcond, h3, countRemoteCalls]
  · intro he
    simp [handle_direct_message, he]

/-- C5 (witness): "12345" is forwarded to the use-case while "42" gets
the guidance reply and no unban attempt. -/
theorem claim5_witness :
    ((handle_direct_message ⟨-100555⟩ "12345" .ok).1 =
      (process_unban_request ⟨-100555⟩ "12345" .ok).1 ∧
     (handle_direct_message ⟨-100555⟩ "12345" .ok).2 =
      some (process_unban_request ⟨-100555⟩ "12345" .ok).2) ∧
    ((handle_direct_message ⟨-100555⟩ "42" .ok).1 = [.reply guidanceReply] ∧
     (handle_direct_message ⟨-100555⟩ "42" .ok).2 = none ∧
     countRemoteCalls (handle_direct_message ⟨-100555⟩ "42" .ok).1 = 0) := by
  constructor
  · exact (claim5_direct_message_dispatch ⟨-100555⟩ "12345" .ok (by decide)).1
      (by decide) (by decide)
  · exact (claim5_direct_message_dispatch ⟨-100555⟩ "42" .ok (by decide)).2.1
      (by decide) (by decide) (by decide)

/-- C7: no exception propagates out of the dispatcher: a handler that
raises is routed to the registered error handler, which logs first and
sends the best-effort generic notification when the update has a
message; a failure of that notification is swallowed and still nothing
propagates.  The routing itself is modelled from the spec (§4.2), the
error handler from `src/app.py` lines 298-310. -/
theorem claim7_error_handler_containment (run : HandlerRun)
    (hasMsg : Bool) (notify : NotifyResult) :
    (dispatch run hasMsg notify).2 = false ∧
    (∀ e, run = .raises e →
      (dispatch run hasMsg notify).1.head? = some (.log "Bot error")) ∧
    (∀ e, run = .raises e → hasMsg = true → notify = .sent →
      (dispatch run hasMsg notify).1 = [.log "Bot error", .reply genericErrorReply]) ∧
    (∀ e, run = .raises e → notify = .failed →
      (dispatch run hasMsg notify).1 = [.log "Bot error"] ∧
      (dispatch run hasMsg notify).2 = false) := by
  cases run <;> cases hasMsg <;> cases notify <;>
    simp [dispatch, error_handler]

/-- C7 (witness): a raising handler whose notification itself fails
still yields a normal (non-propagating) dispatch that logged the error. -/
theorem claim7_witness :
    (dispatch (.raises "boom") true .failed).1 = [.log "Bot error"] ∧
    (dispatch (.raises "boom") true .failed).2 = false :=
  (claim7_error_handler_containment (.raises "boom") true .failed).2.2.2
    "boom" rfl rfl

/-- C8 (counterexample): with the spec's own example credential
"123:abc" (7 characters, valid format) and channel "-100555",
validation succeeds and the printed summary contains the credential in
full — `BOT_TOKEN[:10]` conceals nothing of a secret of at most 10
characters. -/
theorem claim8_counterexample :
    (validate "123:abc" "-100555").ok = true ∧
    (validate "123:abc" "-100555").printed.any
      (fun l => strContains l "123:abc") = true := by
  decide

/-- C8 (amended): a missing credential or missing/non-numeric channel
identifier makes validation fail and the process exit with status 1,
with every violated constraint collected (not just the first) and the
full diagnostic list printed; on success the process continues, the
summary showing the first 10 characters of the secret followed by
"..." — which conceals the remainder only when the secret is longer
than 10 characters.  The all-ASCII hypothesis scopes the embedding of
`int()`. -/
theorem claim8_config_validation (tok chan : String) (_ha : allAscii chan) :
    ((tok = "" ∨ chan = "" ∨ pyIntParse chan = none) →
      (validate tok chan).ok = false ∧ startupExit tok chan = some 1) ∧
    (tok = "" → botTokenNotSet ∈ (validate tok chan).errors) ∧
    (chan = "" → channelIdNotSet ∈ (validate tok chan).errors) ∧
    (chan ≠ "" → pyIntParse chan = none →
      channelIdNotNumber ∈ (validate tok chan).errors) ∧
    ((validate tok chan).ok = false →
      (validate tok chan).printed = "❌ Configuration Errors:" ::
        (validate tok chan).errors.map (fun e => "   - " ++ e) ++ setupInstructions) ∧
    ((validate tok chan).ok = true →
      (validate tok chan).printed =
        ["✅ Configuration validated successfully!",
         "🤖 Bot Token: " ++ pyTake tok 10 ++ "...",
         "📢 Channel ID: " ++ chan]) := by
  by_cases h1 : tok = "" <;>
  by_cases h2 : chan = "" <;>
  by_cases h3 : pyIntParse chan = none <;>
  by_cases h4 : (!pyStartsWith tok "bot" && !strContains tok ":") = true <;>
  simp_all [validate, startupExit]

/-- C8 (witness): with no credential and channel "12x", validation
fails, the process exits with 1, and both diagnostics are collected. -/
theorem claim8_witness :
    ((validate "" "12x").ok = false ∧ startupExit "" "12x" = some 1) ∧
    botTokenNotSet ∈ (validate "" "12x").errors ∧
    channelIdNotNumber ∈ (validate "" "12x").errors := by
  have h := claim8_config_validation "" "12x" (by decide)
  exact ⟨h.1 (Or.inl rfl), h.2.1 rfl, h.2.2.2.1 (by decide) (by decide)⟩

end UnbanBot
